import Mathlib

/-!
Shallow embedding of the MeepLabs/Node-Token-Authentication repository.

The repository contains three variants of the Express application:
- the standalone server in `src/unnamed/part_000` ("main" variant);
- the router module concatenated into `src/app/models/user.js` after the
  Mongoose model ("routes" variant, `app/routes/api.js`);
- an older standalone server concatenated into `src/server.js` ("legacy"
  variant).
Each handler below is named for its variant.  Third-party libraries
(jsonwebtoken, password-sheriff, argon2, express-limiter) are not part of
the repository; their behaviour is modelled from the specification, as
marked in the doc comments.
-/

namespace NodeTokenAuth

/-- Record stored in the users collection.  The Mongoose schema
(`src/app/models/user.js` lines 5-7) declares exactly two fields,
`username` and `password`, both strings. -/
structure UserRecord where
  username : String
  password : String
deriving Repr, DecidableEq

/-- Document handed to `new User({...})` by the routes-variant create
handler (`src/app/models/user.js` lines 93-97): it may carry an `email`
besides `username` and `password`. -/
structure UserDoc where
  email : Option String
  username : String
  password : String
deriving Repr, DecidableEq

/-- Mongoose keeps only the fields declared in the schema when building a
document, so the `email` field of the input object is dropped
(`src/app/models/user.js` lines 5-7 declare no `email` path). -/
def UserRecord.fromDoc (d : UserDoc) : UserRecord :=
  { username := d.username, password := d.password }

/-- The users collection, in insertion order. -/
abbrev Store := List UserRecord

/-- Model of `User.findOne({ username: u })`: first stored record whose
username equals `u`. -/
def findOne (s : Store) (u : String) : Option UserRecord :=
  s.find? (fun r => r.username == u)

/-- JavaScript truthiness of an optional string field of `req.body`:
`undefined` and the empty string are falsy, every other string is truthy. -/
def truthy : Option String → Bool
  | none => false
  | some s => s ≠ ""

/-! ## PasswordHasher (argon2) -/

/-- Modelled from the spec: the argon2 library (not in the repository)
produces an encoded digest; every digest carries the algorithm prefix, so
a digest is never equal to a bare plaintext such as "password".  Salt
nondeterminism is irrelevant to the claims treated here, so the model is
deterministic. -/
def argon2Hash (p : String) : String :=
  "$argon2id$" ++ p

/-- Recogniser for strings shaped like argon2 encoded digests. -/
def isArgonDigest (s : String) : Bool :=
  s.startsWith "$argon2id$"

/-! ## PasswordPolicy (password-sheriff)

Modelled from the spec (section 4.1) and the configuration passed to
`new passPolicy({...})` in the create handlers: rules are, in fixed
order, length at least 6, identical-character run at most 3, and the
required character classes (one uppercase letter, one digit, one special
character). -/

/-- Rule 1 of the policy: `length: {minLength: 6}`. -/
def ruleLength (p : String) : Bool :=
  6 ≤ p.length

/-- Length of the longest run of identical consecutive characters,
accumulator version. -/
def maxRunAux : Char → Nat → Nat → List Char → Nat
  | _, cur, best, [] => max cur best
  | prev, cur, best, c :: cs =>
      if c = prev then maxRunAux prev (cur + 1) best cs
      else maxRunAux c 1 (max cur best) cs

/-- Length of the longest run of identical consecutive characters. -/
def maxRun (cs : List Char) : Nat :=
  match cs with
  | [] => 0
  | c :: rest => maxRunAux c 1 0 rest

/-- Rule 2 of the policy: `identicalChars: {max: 3}`. -/
def ruleIdenticalChars (p : String) : Bool :=
  maxRun p.toList ≤ 3

/-- Modelled from the spec: the special-character set of
`charsets.specialCharacters` (library source absent); a fixed set. -/
def isSpecialChar (c : Char) : Bool :=
  c ∈ ("!@#$%^&*()+=?.,:;<>_-~".toList)

/-- Rule 3 of the policy: `contains` uppercase, digit and special. -/
def ruleContains (p : String) : Bool :=
  p.toList.any (fun c => 'A' ≤ c && c ≤ 'Z')
    && p.toList.any (fun c => '0' ≤ c && c ≤ '9')
    && p.toList.any isSpecialChar

/-- Model of `policy.check(password)` for a string argument: every rule
passes. -/
def policyCheck (p : String) : Bool :=
  ruleLength p && ruleIdenticalChars p && ruleContains p

/-- Model of `policy.check(req.body.password)` when the field may be
absent: a missing password satisfies no rule. -/
def policyCheckOpt : Option String → Bool
  | none => false
  | some p => policyCheck p

/-- One entry of the violation list, one constructor per policy rule. -/
inductive Violation where
  | lengthAtLeast6
  | identicalCharsMax3
  | containsRequired
deriving Repr, DecidableEq

/-- Modelled from the spec: each failing rule contributes one entry, in
the fixed rule order. -/
def policyViolations (p : String) : List Violation :=
  (if ruleLength p then [] else [Violation.lengthAtLeast6])
    ++ (if ruleIdenticalChars p then [] else [Violation.identicalCharsMax3])
    ++ (if ruleContains p then [] else [Violation.containsRequired])

/-- Result of `PasswordPolicy.Evaluate`. -/
structure PolicyResult where
  accepted : Bool
  violations : List Violation
deriving Repr, DecidableEq

/-- Modelled from the spec: `Evaluate(candidate) -> PasswordPolicyResult`,
combining the accept decision of `policy.check` with the violation list. -/
def policyEvaluate (p : String) : PolicyResult :=
  { accepted := policyCheck p, violations := policyViolations p }

/-! ## TokenService (jsonwebtoken) -/

/-- Payload of a signed token: the handler signs `{username: ...}` and the
library stamps it with issued-at and expiry times.  Modelled from the spec
(section 4.3), the library source being absent from the repository. -/
structure Payload where
  username : String
  iat : Nat
  exp : Nat
deriving Repr, DecidableEq

/-- Modelled from the spec: a token is a self-contained signed structure of
payload and signature.  The signature is a message-authentication code over
the payload under the signing key, modelled as the pair of key and payload
(an ideal unforgeable MAC). -/
structure Jwt where
  payload : Payload
  sig : String × Payload
deriving Repr, DecidableEq

/-- Model of `jwt.sign(payload, key, {expiresIn})`: stamps issued-at with the
current time and expiry `expiresIn` seconds later, and signs. -/
def jwtSign (username key : String) (now expiresIn : Nat) : Jwt :=
  let p : Payload := { username := username, iat := now, exp := now + expiresIn }
  { payload := p, sig := (key, p) }

/-- Error kinds of `jwt.verify`, per the spec taxonomy. -/
inductive VerifyError where
  | tokenExpired
  | tokenInvalid
deriving Repr, DecidableEq

/-- Model of `jwt.verify(token, key)` at time `now`: the signature must be
the MAC of the payload under `key`, and the token must not be past its
expiry (`TokenExpired` when `now > expiresAt`, per the spec). -/
def jwtVerify (t : Jwt) (key : String) (now : Nat) : Except VerifyError Payload :=
  if t.sig ≠ (key, t.payload) then Except.error VerifyError.tokenInvalid
  else if t.payload.exp < now then Except.error VerifyError.tokenExpired
  else Except.ok t.payload

/-- Token issuance as performed by the authenticate handlers
(`src/unnamed/part_000` lines 198-204): sign `{username}` with the process
secret and `expiresIn: 86400`. -/
def tokenIssue (secret username : String) (now : Nat) : Jwt :=
  jwtSign username secret now 86400

/-! ## HTTP handlers -/

/-- JSON response fields used across the handlers of this repository; fields
a handler does not set are `none`. -/
structure ApiResponse where
  status : Nat
  success : Option Bool
  message : Option String
  policy : Option (List Violation)
  token : Option Jwt
deriving Repr, DecidableEq

/-- Body of a request to `POST /create` or `POST /authenticate`; absent
fields are `none`. -/
structure CreateReq where
  username : Option String
  password : Option String
  email : Option String
deriving Repr, DecidableEq

/-- Main-variant create handler (`src/unnamed/part_000` lines 100-168):
duplicate-username check, then password policy, then hash and save.  The
`err` arguments of the database and hashing callbacks are modelled as
absent (a run in which no callback reports an error). -/
def createMain (s : Store) (req : CreateReq) : ApiResponse × Store :=
  let existing := match req.username with
    | some u => findOne s u
    | none => none
  if existing.isSome then
    ({ status := 403, success := some false,
       message := some "Username already exists.",
       policy := none, token := none }, s)
  else if policyCheckOpt req.password = false then
    ({ status := 406, success := some false,
       message := some "Invalid Password",
       policy := some (policyViolations (req.password.getD "")),
       token := none }, s)
  else
    ({ status := 200, success := some true,
       message := none, policy := none, token := none },
     s ++ [{ username := req.username.getD "",
             password := argon2Hash (req.password.getD "") }])

/-- Routes-variant create handler (`src/app/models/user.js` lines 39-118).
The required-information check at lines 46-53 is transcribed exactly as the
source writes it: the branch fires when the username is falsy, OR the
password is truthy, OR the email is truthy
(`(!req.body.username) || (req.body.password) || (req.body.email)`). -/
def createRoutes (s : Store) (req : CreateReq) : ApiResponse × Store :=
  if !truthy req.username || truthy req.password || truthy req.email then
    ({ status := 403, success := some false,
       message := some "Missing required information",
       policy := none, token := none }, s)
  else
    let existing := match req.username with
      | some u => findOne s u
      | none => none
    if existing.isSome then
      ({ status := 403, success := some false,
         message := some "Username already exists.",
         policy := none, token := none }, s)
    else if policyCheckOpt req.password = false then
      ({ status := 406, success := some false,
         message := some "Invalid Password",
         policy := some (policyViolations (req.password.getD "")),
         token := none }, s)
    else
      ({ status := 200, success := some true,
         message := none, policy := none, token := none },
       s ++ [UserRecord.fromDoc
               { email := req.email,
                 username := req.username.getD "",
                 password := argon2Hash (req.password.getD "") }])

/-- Setup handler (`src/unnamed/part_000` lines 51-67 and `src/server.js`
lines 90-105): saves a fixed sample user with a plaintext password, with no
policy check and no hashing, and responds with success. -/
def setupHandler (s : Store) : ApiResponse × Store :=
  ({ status := 200, success := some true,
     message := none, policy := none, token := none },
   s ++ [{ username := "Nick Cerminara", password := "password" }])

/-- Users handler of the main and routes variants (`src/unnamed/part_000`
lines 272-281, `src/app/models/user.js` lines 222-231): pushes each stored
username into a fresh array and responds with that array. -/
def usersHandler (s : Store) : List String :=
  s.map (fun u => u.username)

/-- Legacy users handler (`src/server.js` lines 290-294): responds with
`res.json(users)`, the full stored documents. -/
def usersHandlerLegacy (s : Store) : List UserRecord :=
  s

/-- Model of `argon2.verify(digest, candidate)` under the deterministic
hash model: the digest matches exactly the digest of the candidate. -/
def argon2Verify (digest candidate : String) : Bool :=
  digest == argon2Hash candidate

/-- Authenticate handler (`src/unnamed/part_000` lines 174-221): look up
the user, verify the password, and on success respond with a token signed
with `expiresIn: 86400`. -/
def authenticateHandler (s : Store) (secret : String) (now : Nat)
    (req : CreateReq) : ApiResponse :=
  let found := match req.username with
    | some u => findOne s u
    | none => none
  match found with
  | none =>
      { status := 403, success := some false,
        message := some "Authentication failed. User not found.",
        policy := none, token := none }
  | some user =>
      if argon2Verify user.password (req.password.getD "") then
        { status := 200, success := some true,
          message := some "Enjoy your token!",
          policy := none, token := some (tokenIssue secret user.username now) }
      else
        { status := 403, success := some false,
          message := some "Authentication failed. Wrong password.",
          policy := none, token := none }

/-! ## Token middleware -/

/-- Token-bearing slots of a request to a protected route.  Tokens are
structured values in this model, so JavaScript string truthiness reduces
to presence. -/
structure MwRequest where
  bodyToken : Option Jwt
  queryToken : Option Jwt
  headerToken : Option Jwt
deriving Repr, DecidableEq

/-- Extraction order of `src/unnamed/part_000` line 229
(`req.body.token || req.param(token) || req.headers[x-access-token]`):
body first, then query or URL parameter, then header. -/
def extractToken (r : MwRequest) : Option Jwt :=
  (r.bodyToken.orElse fun _ => r.queryToken).orElse fun _ => r.headerToken

/-- Outcome of the middleware: either a JSON rejection, or `next()` with
the decoded payload attached to the request. -/
inductive MwOutcome where
  | rejected (status : Nat) (message : String)
  | passed (decoded : Payload)
deriving Repr, DecidableEq

/-- Token middleware (`src/unnamed/part_000` lines 226-258 and
`src/app/models/user.js` lines 184-216): reject with
"No token provided." when no slot holds a token; otherwise verify and
either reject with "Failed to authenticate token." or pass control
downstream with the decoded payload. -/
def tokenMiddleware (r : MwRequest) (key : String) (now : Nat) : MwOutcome :=
  match extractToken r with
  | none => MwOutcome.rejected 403 "No token provided."
  | some t =>
      match jwtVerify t key now with
      | Except.error _ => MwOutcome.rejected 403 "Failed to authenticate token."
      | Except.ok d => MwOutcome.passed d

/-! ## RateLimiter (express-limiter) -/

/-- Modelled from the spec: per-key fixed-window counter of the rate-limit
store (the express-limiter library is not in the repository). -/
structure Counter where
  count : Nat
  windowStart : Nat
deriving Repr, DecidableEq

/-- Rate-limit policy: the `total` and `expire` fields of the `limiter`
configuration (`src/unnamed/part_000` lines 82-94: total 5, expire
1000*60*5 milliseconds). -/
structure LimitPolicy where
  total : Nat
  expire : Nat
deriving Repr, DecidableEq

/-- Modelled from the spec (section 4.4): one `Allow` call for a key.  If no
counter exists or the window has elapsed, start a fresh window; increment
the count; admit exactly when the incremented count does not exceed
`total` (the rejected attempt keeps its increment). -/
def rateAllow (pol : LimitPolicy) (st : Option Counter) (now : Nat) :
    Bool × Counter :=
  let base := match st with
    | some c => if now < c.windowStart + pol.expire then c
                else { count := 0, windowStart := now }
    | none => { count := 0, windowStart := now }
  let c : Counter := { count := base.count + 1, windowStart := base.windowStart }
  (decide (c.count ≤ pol.total), c)

/-- Run of successive `Allow` calls for one key at the given times,
threading the counter, returning the decisions in order. -/
def rateRun (pol : LimitPolicy) (st : Option Counter) :
    List Nat → List Bool × Option Counter
  | [] => ([], st)
  | t :: ts =>
      let step := rateAllow pol st t
      let rest := rateRun pol (some step.2) ts
      (step.1 :: rest.1, rest.2)

/-- The `/authenticate` rate-limit policy of the main variant
(`src/unnamed/part_000` lines 82-94): 5 requests per 5 minutes. -/
def authLimitPolicy : LimitPolicy :=
  { total := 5, expire := 1000 * 60 * 5 }

/-! ## Supporting lemmas -/

/-- The main-variant create handler satisfies the registration contract:
for a non-empty username absent from the store and a policy-accepted
password, it responds with success, no token, and appends the record with
the hashed password. -/
theorem createMain_success (s : Store) (u p : String) (e : Option String)
    (habs : findOne s u = none) (hpol : policyCheck p = true) :
    createMain s { username := some u, password := some p, email := e } =
      ({ status := 200, success := some true,
         message := none, policy := none, token := none },
       s ++ [{ username := u, password := argon2Hash p }]) := by
  simp [createMain, habs, policyCheckOpt, hpol]

/-- The users handler of the main and routes variants depends only on the
stored usernames: any two stores with the same username sequence produce
the same response, whatever the password digests are. -/
theorem usersHandler_digest_independent (s₁ s₂ : Store)
    (h : s₁.map (fun u => u.username) = s₂.map (fun u => u.username)) :
    usersHandler s₁ = usersHandler s₂ := by
  simpa [usersHandler] using h

/-! ## Claims -/

/-- Claim C1 (code bug): the routes-variant create handler never performs
the registration the claim describes.  With an empty store, username
"alice" and the policy-accepted password "Passw0rd!", the
required-information check of `src/app/models/user.js` lines 46-53 —
written to fire when the password is PRESENT — rejects the request with
403 "Missing required information" and writes nothing, while the
main-variant handler at the same input succeeds as the claim states. -/
theorem register_routes_required_info_inverted :
    policyCheck "Passw0rd!" = true
    ∧ createRoutes [] { username := some "alice", password := some "Passw0rd!", email := none } =
        ({ status := 403, success := some false,
           message := some "Missing required information",
           policy := none, token := none }, [])
    ∧ createMain [] { username := some "alice", password := some "Passw0rd!", email := none } =
        ({ status := 200, success := some true,
           message := none, policy := none, token := none },
         [{ username := "alice", password := argon2Hash "Passw0rd!" }]) := by
  refine ⟨by decide, by decide, by decide⟩

/-- Claim C2 (code bug): the legacy users handler (`src/server.js` lines
290-294) responds with the full stored documents, so password digests
appear in the body and the response changes when only a digest changes;
the main and routes variants respond with usernames only at the same
stores. -/
theorem users_legacy_digest_leak :
    usersHandler [{ username := "alice", password := argon2Hash "Passw0rd!" }] = ["alice"]
    ∧ usersHandler [{ username := "alice", password := argon2Hash "Other1!@" }] = ["alice"]
    ∧ usersHandlerLegacy [{ username := "alice", password := argon2Hash "Passw0rd!" }]
        ≠ usersHandlerLegacy [{ username := "alice", password := argon2Hash "Other1!@" }]
    ∧ (usersHandlerLegacy [{ username := "alice", password := argon2Hash "Passw0rd!" }]).map
          (fun u => u.password) = [argon2Hash "Passw0rd!"] := by
  refine ⟨by decide, by decide, by decide, by decide⟩

/-- Claim C3 (code bug): at a store already holding "alice", a second
registration of "alice" with password "Other1!@" is answered by the
main-variant handler with "Username already exists." and an unchanged
store, as the claim states — but the routes-variant handler answers
"Missing required information" (the inverted required-information check
fires before the duplicate branch); the store is unchanged in both. -/
theorem duplicate_username_message_preempted :
    createMain [{ username := "alice", password := argon2Hash "Passw0rd!" }]
        { username := some "alice", password := some "Other1!@", email := none } =
      ({ status := 403, success := some false,
         message := some "Username already exists.",
         policy := none, token := none },
       [{ username := "alice", password := argon2Hash "Passw0rd!" }])
    ∧ createRoutes [{ username := "alice", password := argon2Hash "Passw0rd!" }]
        { username := some "alice", password := some "Other1!@", email := none } =
      ({ status := 403, success := some false,
         message := some "Missing required information",
         policy := none, token := none },
       [{ username := "alice", password := argon2Hash "Passw0rd!" }]) := by
  refine ⟨by decide, by decide⟩

/-- Claim C4: verifying a token immediately after issuance, under the
same signing key, succeeds and returns the issued subject (together with
the stamped issued-at and expiry times). -/
theorem token_roundtrip_subject (secret username : String) (now : Nat) :
    ∃ p : Payload,
      jwtVerify (tokenIssue secret username now) secret now = Except.ok p
      ∧ p.username = username ∧ p.iat = now ∧ p.exp = now + 86400 := by
  have h : ¬ (now + 86400 < now) := by omega
  exact ⟨{ username := username, iat := now, exp := now + 86400 },
    by simp [tokenIssue, jwtSign, jwtVerify, h], rfl, rfl, rfl⟩

/-- Claim C5: the token middleware rejects with "No token provided." when
no slot of the request carries a token, and rejects with the single
message "Failed to authenticate token." whenever verification fails,
whether the error is TokenExpired or TokenInvalid; in both cases the
outcome is a rejection, so no downstream handler runs. -/
theorem token_middleware_rejections (r : MwRequest) (key : String) (now : Nat) :
    (extractToken r = none →
      tokenMiddleware r key now = MwOutcome.rejected 403 "No token provided.")
    ∧ (∀ (t : Jwt) (e : VerifyError), extractToken r = some t →
        jwtVerify t key now = Except.error e →
        tokenMiddleware r key now =
          MwOutcome.rejected 403 "Failed to authenticate token.") := by
  constructor
  · intro h
    simp [tokenMiddleware, h]
  · intro t e ht hv
    simp [tokenMiddleware, ht, hv]

/-- Witness for the middleware theorem: a request with no token at all is
rejected with "No token provided.", and a request carrying a token signed
under a different key is rejected with "Failed to authenticate token.". -/
theorem token_middleware_rejections_witness :
    tokenMiddleware { bodyToken := none, queryToken := none, headerToken := none }
        "secret" 0 = MwOutcome.rejected 403 "No token provided."
    ∧ tokenMiddleware
        { bodyToken := some (jwtSign "alice" "otherkey" 0 86400),
          queryToken := none, headerToken := none }
        "secret" 0 = MwOutcome.rejected 403 "Failed to authenticate token." := by
  refine ⟨?_, ?_⟩
  · exact (token_middleware_rejections
      { bodyToken := none, queryToken := none, headerToken := none } "secret" 0).1 rfl
  · exact (token_middleware_rejections
      { bodyToken := some (jwtSign "alice" "otherkey" 0 86400),
        queryToken := none, headerToken := none } "secret" 0).2
      (jwtSign "alice" "otherkey" 0 86400) VerifyError.tokenInvalid rfl rfl

/-- Claim C6: under the /authenticate policy (total 5, window 300000 ms),
six calls for one key within a single window are admitted for the first
five and rejected for the sixth, the rejected call still increments the
counter (final count 6), and a call after the window has elapsed is
admitted again. -/
theorem rate_limit_window (t0 t1 t2 t3 t4 t5 t6 : Nat)
    (h1 : t1 < t0 + 300000) (h2 : t2 < t0 + 300000) (h3 : t3 < t0 + 300000)
    (h4 : t4 < t0 + 300000) (h5 : t5 < t0 + 300000)
    (h6 : t0 + 300000 ≤ t6) :
    (rateRun authLimitPolicy none [t0, t1, t2, t3, t4, t5]).1
        = [true, true, true, true, true, false]
    ∧ (rateRun authLimitPolicy none [t0, t1, t2, t3, t4, t5]).2
        = some { count := 6, windowStart := t0 }
    ∧ (rateAllow authLimitPolicy (some { count := 6, windowStart := t0 }) t6).1 = true := by
  have h6n : ¬ (t6 < t0 + 300000) := by omega
  simp [rateRun, rateAllow, authLimitPolicy, h1, h2, h3, h4, h5, h6n]

/-- Witness for the rate-limit theorem at the call times 0..5 within the
window and a call at 300000 after it elapses. -/
theorem rate_limit_window_witness :
    (rateRun authLimitPolicy none [0, 1, 2, 3, 4, 5]).1
        = [true, true, true, true, true, false]
    ∧ (rateRun authLimitPolicy none [0, 1, 2, 3, 4, 5]).2
        = some { count := 6, windowStart := 0 }
    ∧ (rateAllow authLimitPolicy (some { count := 6, windowStart := 0 }) 300000).1 = true :=
  rate_limit_window 0 1 2 3 4 5 300000
    (by decide) (by decide) (by decide) (by decide) (by decide) (by decide)

/-- Claim C7: the policy accepts exactly when every rule passes, the
violation list holds exactly one entry per failing rule and no other, its
order follows the fixed rule order (it is a sublist of the full ordered
rule list), and every password shorter than 6 characters is rejected with
the length violation present. -/
theorem policy_evaluate_exact (p : String) :
    ((policyEvaluate p).accepted = true ↔
        (ruleLength p = true ∧ ruleIdenticalChars p = true ∧ ruleContains p = true))
    ∧ ((policyEvaluate p).accepted = true ↔ (policyEvaluate p).violations = [])
    ∧ (Violation.lengthAtLeast6 ∈ (policyEvaluate p).violations ↔ ruleLength p = false)
    ∧ (Violation.identicalCharsMax3 ∈ (policyEvaluate p).violations ↔
        ruleIdenticalChars p = false)
    ∧ (Violation.containsRequired ∈ (policyEvaluate p).violations ↔ ruleContains p = false)
    ∧ (policyEvaluate p).violations.Sublist
        [Violation.lengthAtLeast6, Violation.identicalCharsMax3, Violation.containsRequired]
    ∧ (p.length < 6 → (policyEvaluate p).accepted = false
        ∧ Violation.lengthAtLeast6 ∈ (policyEvaluate p).violations) := by
  have hLiff : ruleLength p = true ↔ 6 ≤ p.length := by simp [ruleLength]
  cases hL : ruleLength p <;> cases hI : ruleIdenticalChars p <;> cases hC : ruleContains p <;>
    simp_all [policyEvaluate, policyViolations, policyCheck]

/-- Witness for the policy theorem at the three-letter password "abc":
the length violation is present and the password is rejected. -/
theorem policy_evaluate_exact_witness :
    (policyEvaluate "abc").accepted = false
    ∧ Violation.lengthAtLeast6 ∈ (policyEvaluate "abc").violations :=
  (policy_evaluate_exact "abc").2.2.2.2.2.2 (by decide)

/-- Claim C8: issuance stamps the token with issued-at equal to the
issuance time and expiry exactly 86400 seconds (24 hours) later. -/
theorem token_issue_timestamps (secret username : String) (now : Nat) :
    (tokenIssue secret username now).payload.iat = now
    ∧ (tokenIssue secret username now).payload.exp = now + 86400
    ∧ (tokenIssue secret username now).payload.exp =
        (tokenIssue secret username now).payload.iat + 86400 :=
  ⟨rfl, rfl, rfl⟩

/-- Claim C9: the setup handler appends the record with username
"Nick Cerminara" and the plaintext password "password" to any store and
reports success; that password is not an argon2 digest, it would fail the
password policy, and it is not the hash of any plaintext — so a record
whose password is not a digest enters the store. -/
theorem setup_stores_plaintext_password (s : Store) :
    (setupHandler s).2 = s ++ [{ username := "Nick Cerminara", password := "password" }]
    ∧ (setupHandler s).1.success = some true
    ∧ isArgonDigest "password" = false
    ∧ policyCheck "password" = false
    ∧ (∀ p : String, argon2Hash p ≠ "password") := by
  refine ⟨rfl, rfl, by decide, by decide, ?_⟩
  intro p h
  have hlen : ("$argon2id$" ++ p).length = "password".length := by
    rw [← h]; rfl
  rw [String.length_append] at hlen
  have h1 : ("$argon2id$" : String).length = 10 := rfl
  have h2 : ("password" : String).length = 8 := rfl
  omega

/-- Witness for the setup theorem at the empty store, with the hash of
"password" itself as the plaintext instance. -/
theorem setup_stores_plaintext_password_witness :
    (setupHandler []).2 = [{ username := "Nick Cerminara", password := "password" }]
    ∧ argon2Hash "password" ≠ "password" :=
  ⟨(setup_stores_plaintext_password []).1,
   (setup_stores_plaintext_password []).2.2.2.2 "password"⟩

/-- Claim C10: the stored record is built by `UserRecord.fromDoc`, which
keeps only the schema fields username and password and drops the email,
so the record persisted with any email equals the record persisted with
any other (or none); and every store the routes-variant create handler
produces is either unchanged or extended by exactly such a record. -/
theorem register_email_dropped (e eAlt : Option String) (u p : String)
    (s : Store) (req : CreateReq) :
    UserRecord.fromDoc { email := e, username := u, password := p }
        = UserRecord.fromDoc { email := eAlt, username := u, password := p }
    ∧ (UserRecord.fromDoc { email := e, username := u, password := p }).username = u
    ∧ (UserRecord.fromDoc { email := e, username := u, password := p }).password = p
    ∧ ((createRoutes s req).2 = s
        ∨ (createRoutes s req).2 =
            s ++ [UserRecord.fromDoc
                    { email := req.email,
                      username := req.username.getD "",
                      password := argon2Hash (req.password.getD "") }]) := by
  refine ⟨rfl, rfl, rfl, ?_⟩
  obtain ⟨ru, rp, re⟩ := req
  unfold createRoutes
  dsimp only
  repeat' split
  all_goals first | exact Or.inl rfl | exact Or.inr rfl

end NodeTokenAuth
